import Mathlib

/-!
Shallow embedding of `src/Code.js` (Google Apps Script request router for
the H.Saban app backend) and proofs of the specification claims.

Modelling conventions:
* JavaScript numbers are modelled as `Int` (all values the code compares or
  renders are integral: customer numbers, HTTP status codes, recipient
  counts, timestamps).
* Spreadsheet cells (`Value`) are strings, numbers or `Date` objects; the
  external builtin `Date.toISOString` is modelled by the injective rendering
  `dateToIso`, and `new Date(string)` by `parseDateString`, which inverts it.
* A JavaScript object produced by `getSheetData` is a `Record`: an
  association list written by `objSet`, which overwrites an existing key in
  place (JS property-assignment semantics).
* Parsed JSON values are `Jval`. The external builtin `JSON.parse` is
  modelled by its outcome, `Except String Jval`: `Except.error e` is the
  exception (with description `e`) that `JSON.parse` throws on a malformed
  body.
* The external HTTP transport `UrlFetchApp.fetch` (called with
  `muteHttpExceptions: true`) is modelled by `FetchOutcome`: either a thrown
  transport exception or a response carrying its status code, raw text body
  and the outcome of `JSON.parse` on that body.
* The script-properties store is `Props` (the two OneSignal credentials,
  each possibly absent).
* The spreadsheet store is `Store`: the four sheets the code opens by name,
  each possibly absent (`getSheetByName` returns `null` for a missing
  sheet).
-/

/-- A spreadsheet cell value: string, number, or `Date` object. -/
inductive Value
  | str (s : String)
  | num (n : Int)
  | date (t : Int)
deriving DecidableEq, Repr

/-- Models `Date.prototype.toISOString` on the date with timestamp `t`:
an injective canonical rendering of the timestamp. -/
def dateToIso (t : Int) : String := toString t

/-- JavaScript `String(v)` coercion of a cell value. -/
def valueToString : Value → String
  | .str s => s
  | .num n => toString n
  | .date t => dateToIso t

/-- JavaScript `String(x)` where `x` may be `undefined` (a missing
property reads as `undefined`, and `String(undefined) = "undefined"`). -/
def valueToStringOpt : Option Value → String
  | none => "undefined"
  | some v => valueToString v

/-- JavaScript `String.prototype.trim`: strip leading and trailing
whitespace (implemented over the character list so that it evaluates by
kernel reduction). -/
def jsTrim (s : String) : String :=
  ⟨((s.data.dropWhile Char.isWhitespace).reverse.dropWhile Char.isWhitespace).reverse⟩

/-- Digit-string accumulator for `parseDateString`. -/
def digitsToNat : List Char → Nat → Option Nat
  | [], acc => some acc
  | c :: cs, acc =>
    if c.isDigit then digitsToNat cs (acc * 10 + (c.toNat - 48)) else none

/-- `new Date(s)` on a string: parses exactly the canonical renderings
produced by `dateToIso`, `none` (an invalid date) otherwise. -/
def parseDateString (s : String) : Option Int :=
  match s.data with
  | [] => none
  | '-' :: rest =>
    match rest with
    | [] => none
    | _ => (digitsToNat rest 0).map (fun n => -(n : Int))
  | l => (digitsToNat l 0).map (fun n => (n : Int))

/-- JavaScript truthiness of a cell value (`""` and `0` are falsy). -/
def truthy : Value → Bool
  | .str s => s ≠ ""
  | .num n => n ≠ 0
  | .date _ => true

/-- JavaScript `a || b` on possibly-`undefined` values: yields `a` when
`a` is truthy, otherwise `b`. -/
def jsOr (a b : Option Value) : Option Value :=
  match a with
  | some v => if truthy v then some v else b
  | none => b

/-- `new Date(x)` where `x` may be `undefined`, returning the timestamp,
or `none` for an invalid date (`NaN`). `new Date(undefined)` is invalid;
a number is its own timestamp; a string parses iff it is a rendering
produced by `dateToIso`; a `Date` object is copied. -/
def jsDate : Option Value → Option Int
  | none => none
  | some (.str s) => parseDateString s
  | some (.num n) => some n
  | some (.date t) => some t

/-- One normalized row: a JavaScript object mapping column-header strings
to cell values, in property-insertion order. -/
def Record := List (String × Value)
deriving DecidableEq, Repr

/-- Property read `obj[k]`: first binding wins (keys are unique by
construction since `objSet` overwrites); `none` is `undefined`. -/
def objLookup (r : Record) (k : String) : Option Value :=
  match r with
  | [] => none
  | (k', v) :: rest => if k' = k then some v else objLookup rest k

/-- Property write `obj[k] = v`: overwrites an existing binding in place,
otherwise appends (JS property-assignment semantics). -/
def objSet (r : Record) (k : String) (v : Value) : Record :=
  match r with
  | [] => [(k, v)]
  | (k', v') :: rest => if k' = k then (k, v) :: rest else (k', v') :: objSet rest k v

/-- The key set of a record, in insertion order. -/
def objKeys (r : Record) : List String :=
  match r with
  | [] => []
  | (k, _) :: rest => k :: objKeys rest

/-- A sheet: its grid of rows (the first row is the header row) and the
last column with content, `getLastColumn()`. `getLastRow()` is the number
of rows of the grid. -/
structure Sheet where
  rows : List (List Value)
  numCols : Nat
deriving Repr

/-- `getRange(...).getValues()` pads a short row with empty cells up to
the requested width and truncates a longer one. -/
def padTo (n : Nat) (row : List Value) : List Value :=
  row.take n ++ List.replicate (n - row.length) (.str "")

/-- One iteration of the `headers.forEach` body of `getSheetData`:
`rowObject[header] = row[index] instanceof Date ? row[index].toISOString() : row[index]`.
The object key is the JS string coercion of the header cell. -/
def buildCell (row : List Value) (acc : Record) (hi : Nat × Value) : Record :=
  let cell := (row.get? hi.1).getD (.str "")
  objSet acc (valueToString hi.2)
    (match cell with
     | .date t => .str (dateToIso t)
     | v => v)

/-- The `data.map` body of `getSheetData`: build one record from the
header row and one data row. -/
def buildRowObject (headers row : List Value) : Record :=
  (headers.enum).foldl (buildCell row) []

/-- `getSheetData(sheet)` from `src/Code.js`: `[]` for a `null` sheet or a
sheet with fewer than 2 rows; otherwise one record per data row, keyed by
the header row, with `Date` cells serialized. -/
def getSheetData : Option Sheet → List Record
  | none => []
  | some sheet =>
    if sheet.rows.length < 2 then []
    else
      let headers := padTo sheet.numCols (sheet.rows.head?.getD [])
      let data := (sheet.rows.drop 1).map (padTo sheet.numCols)
      data.map (buildRowObject headers)

/-- The spreadsheet store: the four sheets `Code.js` opens by name, each
`none` when `getSheetByName` finds no such sheet. -/
structure Store where
  /-- Sheet named לקוחות (customers). -/
  customers : Option Sheet
  /-- Sheet named שכירות מכולות (container rentals). -/
  containerRentals : Option Sheet
  /-- Sheet named הזמנות חומרי בנין (material orders). -/
  materialOrders : Option Sheet
  /-- Sheet named הזמנות מכולות (container orders). -/
  containerOrders : Option Sheet

/-- A parsed JSON value. -/
inductive Jval
  | str (s : String)
  | num (n : Int)
  | bool (b : Bool)
  | null
  | arr (elems : List Jval)
  | obj (fields : List (String × Jval))
deriving Repr

/-- Property read `payload.k` on a parsed JSON value; `none` is
`undefined`. A primitive has no own properties; reading a property of
`null` throws a `TypeError`, which `jsGetMember` models. -/
def jvalGet (v : Jval) (k : String) : Option Jval :=
  match v with
  | .obj fields => fields.lookup k
  | _ => none

/-- Property read `payload.k` at the router, where `payload` may be
`null` (e.g. the body "null"): reading a property of `null` throws. -/
def jsGetMember (v : Jval) (k : String) : Except String (Option Jval) :=
  match v with
  | .null => .error ("TypeError: Cannot read properties of null (reading " ++ k ++ ")")
  | _ => .ok (jvalGet v k)

/-- JavaScript `String(x)` coercion of a parsed JSON value. Arrays and
objects coerce through `Array.prototype.toString`/`Object.prototype.toString`;
no code path of `Code.js` that a claim touches coerces a composite, so
those cases are abbreviated. -/
def jvalToString : Jval → String
  | .str s => s
  | .num n => toString n
  | .bool b => if b then "true" else "false"
  | .null => "null"
  | .arr _ => ""
  | .obj _ => "[object Object]"

/-- JavaScript `String(x)` where `x` may be `undefined`. -/
def jvalToStringOpt : Option Jval → String
  | none => "undefined"
  | some v => jvalToString v

/-- JavaScript `x > 0` where `x` may be `undefined`
(`undefined > 0` is `false`; a numeric string coerces). -/
def jsGtZero : Option Jval → Bool
  | some (.num n) => n > 0
  | some (.str s) => match s.toInt? with
      | some n => n > 0
      | none => false
  | some (.bool b) => b
  | _ => false

/-- The response envelope written by `createJsonResponse`: the `status`
field plus whichever extra fields the handler supplied. -/
structure Response where
  status : String
  message : Option String := none
  user : Option Record := none
  containers : Option (List Record) := none
  materialOrders : Option (List Record) := none
  orders : Option (List Record) := none
deriving DecidableEq, Repr

/-- The shorthand for `createJsonResponse({status:'error', message: m})`. -/
def errResponse (m : String) : Response :=
  { status := "error", message := some m }

/-- `String(row[k]).trim()` on a record field, the comparison form used by
every lookup in `Code.js`. -/
def trimmedField (r : Record) (k : String) : String :=
  jsTrim (valueToStringOpt (objLookup r k))

/-- The predicate of the `customersData.find` in `handleGetClientData`:
the trimmed מספר לקוח (customer number) or trimmed טלפון (phone) field
equals the trimmed identifier. -/
def matchesId (customerId : String) (row : Record) : Bool :=
  trimmedField row "מספר לקוח" == customerId || trimmedField row "טלפון" == customerId

/-- `String(payload.customerId).trim()`: the trimmed identifier the
client lookup searches for. -/
def inputCustomerId (payload : Jval) : String :=
  jsTrim (jvalToStringOpt (jvalGet payload "customerId"))

/-- `handleGetClientData(payload)` from `src/Code.js`. -/
def handleGetClientData (store : Store) (payload : Jval) : Response :=
  let customerId := inputCustomerId payload
  let customersData := getSheetData store.customers
  match customersData.find? (matchesId customerId) with
  | none => errResponse "Client not found"
  | some user =>
    let actualCustomerId := trimmedField user "מספר לקוח"
    let clientContainers :=
      (getSheetData store.containerRentals).filter
        (fun row => trimmedField row "מספר לקוח" == actualCustomerId)
    let clientMaterialOrders :=
      (getSheetData store.materialOrders).filter
        (fun row => trimmedField row "מספר לקוח" == actualCustomerId)
    { status := "success", user := some user, containers := some clientContainers,
      materialOrders := some clientMaterialOrders }

/-- The order timestamp of the sort in `handleGetAllOrders`:
`new Date(r['תאריך קליטה'] || r['תאריך הזמנה'])`, `none` for an invalid
date. -/
def orderTs (r : Record) : Option Int :=
  jsDate (jsOr (objLookup r "תאריך קליטה") (objLookup r "תאריך הזמנה"))

/-- The sort comparator `(a, b) => new Date(b...) - new Date(a...)` viewed
as "a may precede b": true iff the comparator result is `≤ 0`, where a
`NaN` result (either date invalid) acts as `0`, i.e. a tie — the behaviour
of the stable engine sort when the comparator returns `NaN`. -/
def orderLe (a b : Record) : Bool :=
  match orderTs a, orderTs b with
  | some x, some y => y ≤ x
  | _, _ => true

/-- Stable insertion into a list sorted by `orderLe` (the engine sort is
stable per ES2019). -/
def insertByDate (x : Record) : List Record → List Record
  | [] => [x]
  | y :: ys => if orderLe x y then x :: y :: ys else y :: insertByDate x ys

/-- The `.sort(...)` call of `handleGetAllOrders`: a stable sort by the
date comparator. -/
def sortByDate (l : List Record) : List Record :=
  l.foldr insertByDate []

/-- `{ ...order, orderType: t }`: spread copies the record, then the
`orderType` key is written (overwriting any existing one). -/
def tagOrder (t : String) (r : Record) : Record :=
  objSet r "orderType" (.str t)

/-- `handleGetAllOrders()` from `src/Code.js`: reads the material-orders
sheet (הזמנות חומרי בנין) and the container-orders sheet (הזמנות מכולות),
tags, concatenates and sorts descending by order date. -/
def handleGetAllOrders (store : Store) : Response :=
  let materialsOrders := (getSheetData store.materialOrders).map (tagOrder "materials")
  let containerOrders := (getSheetData store.containerOrders).map (tagOrder "container")
  let allOrders := sortByDate (materialsOrders ++ containerOrders)
  { status := "success", orders := some allOrders }

/-- `handleUpdateOrderStatus(payload)` from `src/Code.js`: a placeholder
that returns a fixed success envelope and touches no sheet (it does not
even open the spreadsheet). -/
def handleUpdateOrderStatus (_payload : Jval) : Response :=
  { status := "success", message := some "Status updated successfully (simulation)." }

/-- The script-properties store: the two OneSignal credentials, `none`
when `getProperty` returns `null`. -/
structure Props where
  oneSignalAppId : Option String
  oneSignalRestApiKey : Option String

/-- `!cred` in `handleSendNotification`: a credential is missing when the
property is absent or the empty string (both falsy). -/
def credMissing : Option String → Bool
  | none => true
  | some s => s == ""

/-- The outcome of the one `UrlFetchApp.fetch` call (made with
`muteHttpExceptions: true`): a thrown transport exception with its
description, or a response with its status code, raw text body, and the
outcome of `JSON.parse` on that body. -/
inductive FetchOutcome
  | throws (msg : String)
  | responds (code : Int) (bodyText : String) (parsed : Except String Jval)

/-- What `handleSendNotification` produced: the envelope, whether the
outbound `UrlFetchApp.fetch` call was attempted, and the notification
payload it built (none when it short-circuited before building one). -/
structure NotifyResult where
  response : Response
  fetchAttempted : Bool
  requestPayload : Option Jval

/-- `handleSendNotification(payload)` from `src/Code.js`, parameterized by
the script properties and the outcome of the single outbound POST. -/
def handleSendNotification (props : Props) (fetch : FetchOutcome) (payload : Jval) :
    NotifyResult :=
  if credMissing props.oneSignalAppId || credMissing props.oneSignalRestApiKey then
    { response := errResponse "OneSignal App ID or API Key not set in Script Properties.",
      fetchAttempted := false, requestPayload := none }
  else
    let clientId := jvalGet payload "clientId"
    let title := (jvalGet payload "title").getD .null
    let message := (jvalGet payload "message").getD .null
    let notification : Jval := .obj
      [("app_id", .str ((props.oneSignalAppId).getD "")),
       ("contents", .obj [("en", message), ("he", message)]),
       ("headings", .obj [("en", title), ("he", title)]),
       ("include_external_user_ids", .arr [.str (jvalToStringOpt clientId)])]
    match fetch with
    | .throws msg =>
      { response := errResponse ("Failed to send notification due to a script error: " ++ msg),
        fetchAttempted := true, requestPayload := some notification }
    | .responds code bodyText parsed =>
      if code == 200 then
        match parsed with
        | .error e =>
          { response := errResponse ("Failed to send notification due to a script error: " ++ e),
            fetchAttempted := true, requestPayload := some notification }
        | .ok parsedBody =>
          if jsGtZero (jvalGet parsedBody "recipients") then
            let okMsg := "Notification sent successfully to " ++
              jvalToStringOpt (jvalGet parsedBody "recipients") ++ " recipient(s)."
            { response := { status := "success", message := some okMsg },
              fetchAttempted := true, requestPayload := some notification }
          else
            let warnMsg := "Notification sent, but no recipients found for Client ID: " ++
              jvalToStringOpt clientId ++
              ". Please verify the client has enabled notifications and is correctly identified in OneSignal."
            { response := { status := "warning", message := some warnMsg },
              fetchAttempted := true, requestPayload := some notification }
      else
        { response := errResponse ("Failed to send notification. OneSignal returned status " ++
            toString code ++ ". Details: " ++ bodyText),
          fetchAttempted := true, requestPayload := some notification }

/-- The `switch (action)` of `doPost`: strict string equality against the
five case labels, otherwise the unknown-action envelope echoing the JS
string coercion of the action value. -/
def dispatch (store : Store) (props : Props) (fetch : FetchOutcome) (payload : Jval)
    (action : Option Jval) : Response :=
  match action with
  | some (.str "getClientData") => handleGetClientData store payload
  | some (.str "getAdminDashboardData") => handleGetAllOrders store
  | some (.str "getAllOrders") => handleGetAllOrders store
  | some (.str "updateOrderStatus") => handleUpdateOrderStatus payload
  | some (.str "sendNotificationToClient") =>
      (handleSendNotification props fetch payload).response
  | a => errResponse ("Unknown action: " ++ jvalToStringOpt a)

/-- The body of the `try` block of `doPost`: parse (the parse outcome is
the input), read `payload.action` (which throws on a `null` payload), and
dispatch. -/
def doPostTry (store : Store) (props : Props) (fetch : FetchOutcome)
    (body : Except String Jval) : Except String Response :=
  match body with
  | .error e => .error e
  | .ok payload =>
    match jsGetMember payload "action" with
    | .error e => .error e
    | .ok action => .ok (dispatch store props fetch payload action)

/-- `doPost(e)` from `src/Code.js`: the try/catch around parse + dispatch;
any exception becomes the catch-all error envelope. -/
def doPost (store : Store) (props : Props) (fetch : FetchOutcome)
    (body : Except String Jval) : Response :=
  match doPostTry store props fetch body with
  | .ok resp => resp
  | .error e => errResponse ("Invalid request or server error: " ++ e)

/-- Sequential processing of requests: the script is stateless (its only
globals are the constant version string and the external stores), so each
request is a pure function of its own body. -/
def processRequests (store : Store) (props : Props) (fetch : FetchOutcome)
    (bodies : List (Except String Jval)) : List Response :=
  bodies.map (doPost store props fetch)

/-! ## Shared fixtures for concrete evaluations -/

/-- A store with none of the four sheets present. -/
def emptyStore : Store := ⟨none, none, none, none⟩

/-- A properties store missing both credentials. -/
def noProps : Props := ⟨none, none⟩

/-- A properties store with both credentials present. -/
def fullProps : Props := ⟨some "appid", some "apikey"⟩

/-- A fetch outcome used where the call must not matter. -/
def downFetch : FetchOutcome := .throws "DNS error"

/-! ## General lemmas about the embedded primitives -/

/-- A successful `find?` returns a satisfying element that is the first
one in scan order. -/
theorem find?_first {α : Type} {p : α → Bool} {l : List α} {x : α}
    (h : l.find? p = some x) :
    p x = true ∧ ∃ pre post, l = pre ++ x :: post ∧ ∀ r ∈ pre, p r = false := by
  induction l with
  | nil => simp [List.find?] at h
  | cons a as ih =>
    rw [List.find?] at h
    by_cases hp : p a
    · rw [hp] at h
      simp only [Option.some.injEq] at h
      subst h
      exact ⟨hp, [], as, rfl, by simp⟩
    · rw [Bool.not_eq_true] at hp
      rw [hp] at h
      obtain ⟨hx, pre, post, hl, hpre⟩ := ih h
      refine ⟨hx, a :: pre, post, by simp [hl], ?_⟩
      intro r hr
      rcases List.mem_cons.mp hr with h1 | h2
      · subst h1; exact hp
      · exact hpre r h2

/-- Writing a property makes its key present and adds no other key. -/
theorem mem_objKeys_objSet (r : Record) (k : String) (v : Value) (x : String) :
    x ∈ objKeys (objSet r k v) ↔ x = k ∨ x ∈ objKeys r := by
  induction r with
  | nil => simp [objSet, objKeys]
  | cons p rest ih =>
    obtain ⟨k', v'⟩ := p
    by_cases hk : k' = k
    · subst hk
      simp only [objSet, if_pos rfl, objKeys, List.mem_cons]
      tauto
    · simp only [objSet, if_neg hk, objKeys, List.mem_cons, ih]
      tauto

/-- The keys accumulated by the `forEach` fold are the coerced header
strings plus whatever the accumulator already had. -/
theorem mem_objKeys_foldl_buildCell (row : List Value) (l : List (Nat × Value)) :
    ∀ (acc : Record) (x : String),
      x ∈ objKeys (l.foldl (buildCell row) acc) ↔
        (∃ p ∈ l, valueToString p.2 = x) ∨ x ∈ objKeys acc := by
  induction l with
  | nil => simp
  | cons b bs ih =>
    intro acc x
    rw [List.foldl_cons, ih]
    constructor
    · rintro (⟨p, hp, hpx⟩ | hacc)
      · exact Or.inl ⟨p, List.mem_cons_of_mem b hp, hpx⟩
      · rw [buildCell, mem_objKeys_objSet] at hacc
        rcases hacc with h1 | h2
        · exact Or.inl ⟨b, List.mem_cons_self b bs, h1.symm⟩
        · exact Or.inr h2
    · rintro (⟨p, hp, hpx⟩ | hacc)
      · rcases List.mem_cons.mp hp with h1 | h2
        · subst h1
          right
          rw [buildCell, mem_objKeys_objSet]
          exact Or.inl hpx.symm
        · exact Or.inl ⟨p, h2, hpx⟩
      · right
        rw [buildCell, mem_objKeys_objSet]
        exact Or.inr hacc

/-- The key set of a normalized row is exactly the set of coerced header
strings. -/
theorem mem_objKeys_buildRowObject (headers row : List Value) (x : String) :
    x ∈ objKeys (buildRowObject headers row) ↔ x ∈ headers.map valueToString := by
  rw [buildRowObject, mem_objKeys_foldl_buildCell]
  have hsnd : headers.map valueToString = headers.enum.map (fun p => valueToString p.2) := by
    conv_lhs => rw [← List.enum_map_snd headers]
    rw [List.map_map]
    rfl
  rw [hsnd, List.mem_map]
  simp [objKeys]

/-- C8: a `null` sheet or a sheet with fewer than 2 rows (empty or
header-only) normalizes to the empty sequence, and this is not an error;
a sheet with a header row and N data rows normalizes to exactly N
records, one per data row in original row order, and every record's key
set is exactly the set of header-row strings. -/
theorem getSheetData_normalizes :
    (∀ s : Sheet, s.rows.length < 2 → getSheetData (some s) = [])
    ∧ (∀ (sheet : Sheet) (headerRow : List Value) (dataRows : List (List Value)),
        sheet.rows = headerRow :: dataRows →
        getSheetData (some sheet) =
          dataRows.map (fun r =>
            buildRowObject (padTo sheet.numCols headerRow) (padTo sheet.numCols r))
        ∧ (getSheetData (some sheet)).length = dataRows.length
        ∧ ∀ rec ∈ getSheetData (some sheet), ∀ k,
            (k ∈ objKeys rec ↔ k ∈ (padTo sheet.numCols headerRow).map valueToString)) := by
  constructor
  · intro s hs
    simp [getSheetData, hs]
  · intro sheet headerRow dataRows hrows
    have hmap : getSheetData (some sheet) =
        dataRows.map (fun r =>
          buildRowObject (padTo sheet.numCols headerRow) (padTo sheet.numCols r)) := by
      rw [getSheetData, hrows]
      cases dataRows with
      | nil => simp
      | cons d ds =>
        simp only [List.length_cons, List.head?_cons, Option.getD_some, List.drop_succ_cons,
          List.drop_zero, List.map_map]
        rw [if_neg (by omega)]
        rfl
    refine ⟨hmap, by rw [hmap, List.length_map], ?_⟩
    intro rec hrec k
    rw [hmap, List.mem_map] at hrec
    obtain ⟨r, _, hr⟩ := hrec
    rw [← hr, mem_objKeys_buildRowObject]

/-- Witness for C8 at a concrete sheet: header + 2 data rows. -/
theorem getSheetData_normalizes_witness :
    (Sheet.mk [[Value.str "h"]] 1).rows.length < 2 ∧
      getSheetData (some (Sheet.mk [[Value.str "h"]] 1)) = [] ∧
      (Sheet.mk [[Value.str "a", Value.num 1], [Value.num 2, Value.str "x"],
          [Value.date 3, Value.str "y"]] 2).rows =
        [Value.str "a", Value.num 1] ::
          [[Value.num 2, Value.str "x"], [Value.date 3, Value.str "y"]] ∧
      (getSheetData (some (Sheet.mk [[Value.str "a", Value.num 1], [Value.num 2, Value.str "x"],
          [Value.date 3, Value.str "y"]] 2))).length = 2 := by
  refine ⟨by decide, getSheetData_normalizes.1 _ (by decide), rfl, ?_⟩
  exact (getSheetData_normalizes.2
    (Sheet.mk [[Value.str "a", Value.num 1], [Value.num 2, Value.str "x"],
      [Value.date 3, Value.str "y"]] 2)
    [Value.str "a", Value.num 1]
    [[Value.num 2, Value.str "x"], [Value.date 3, Value.str "y"]] rfl).2.1

/-- C10: `getSheetData` on a missing (`null`) sheet returns the empty
sequence rather than raising, so the query handlers degrade: with no
customers sheet the lookup reports Client not found; with a matched user
but missing rentals/materials sheets the filtered lists are empty; with
neither order sheet the feed is an empty success list. -/
theorem getSheetData_missing_sheet :
    getSheetData none = []
    ∧ (∀ (rent mat cont : Option Sheet) (payload : Jval),
        handleGetClientData ⟨none, rent, mat, cont⟩ payload = errResponse "Client not found")
    ∧ (∀ (cust cont : Option Sheet) (payload : Jval) (user : Record),
        (getSheetData cust).find? (matchesId (inputCustomerId payload)) = some user →
        handleGetClientData ⟨cust, none, none, cont⟩ payload =
          { status := "success", user := some user,
            containers := some [], materialOrders := some [] })
    ∧ (∀ (cust rent : Option Sheet),
        handleGetAllOrders ⟨cust, rent, none, none⟩ =
          { status := "success", orders := some [] }) := by
  refine ⟨rfl, ?_, ?_, ?_⟩
  · intro rent mat cont payload
    simp [handleGetClientData, getSheetData, List.find?]
  · intro cust cont payload user hfind
    simp only [handleGetClientData]
    rw [hfind]
    simp [getSheetData]
  · intro cust rent
    simp [handleGetAllOrders, getSheetData, sortByDate]

/-- Witness for C10 at a concrete store and payload. -/
theorem getSheetData_missing_sheet_witness :
    handleGetClientData emptyStore (Jval.obj [("customerId", Jval.num 1)]) =
      errResponse "Client not found" ∧
    (getSheetData (some (Sheet.mk [[Value.str "מספר לקוח"], [Value.num 1]] 1))).find?
        (matchesId (inputCustomerId (Jval.obj [("customerId", Jval.num 1)]))) =
      some [("מספר לקוח", Value.num 1)] ∧
    handleGetClientData
        ⟨some (Sheet.mk [[Value.str "מספר לקוח"], [Value.num 1]] 1), none, none, none⟩
        (Jval.obj [("customerId", Jval.num 1)]) =
      { status := "success", user := some [("מספר לקוח", Value.num 1)],
        containers := some [], materialOrders := some [] } := by
  refine ⟨getSheetData_missing_sheet.2.1 none none none _, by decide, ?_⟩
  exact getSheetData_missing_sheet.2.2.1 _ none _ _ (by decide)

/-- C9: `handleUpdateOrderStatus` is a stub: it returns a fixed success
envelope for every payload, and the routed response is the same for every
store, properties and transport — it reads and writes nothing. -/
theorem handleUpdateOrderStatus_stub :
    (∀ payload : Jval, handleUpdateOrderStatus payload =
      { status := "success", message := some "Status updated successfully (simulation)." })
    ∧ (∀ (store : Store) (props : Props) (fetch : FetchOutcome) (payload : Jval),
        jsGetMember payload "action" = .ok (some (.str "updateOrderStatus")) →
        doPost store props fetch (.ok payload) =
          { status := "success", message := some "Status updated successfully (simulation)." }) := by
  refine ⟨fun _ => rfl, ?_⟩
  intro store props fetch payload ha
  simp [doPost, doPostTry, ha, dispatch, handleUpdateOrderStatus]

/-- Witness for C9 at a concrete request. -/
theorem handleUpdateOrderStatus_stub_witness :
    jsGetMember (Jval.obj [("action", Jval.str "updateOrderStatus")]) "action" =
      .ok (some (.str "updateOrderStatus")) ∧
    doPost emptyStore noProps downFetch
        (.ok (Jval.obj [("action", Jval.str "updateOrderStatus")])) =
      { status := "success", message := some "Status updated successfully (simulation)." } := by
  refine ⟨rfl, ?_⟩
  exact handleUpdateOrderStatus_stub.2 emptyStore noProps downFetch _ rfl

/-- C1: a well-formed JSON body whose `action` string is not one of the
five case labels dispatches no handler and yields the unknown-action
error envelope echoing the action string exactly. -/
theorem doPost_unknown_action (store : Store) (props : Props) (fetch : FetchOutcome)
    (payload : Jval) (s : String)
    (ha : jsGetMember payload "action" = Except.ok (some (Jval.str s)))
    (hs : s ∉ (["getClientData", "getAdminDashboardData", "getAllOrders",
      "updateOrderStatus", "sendNotificationToClient"] : List String)) :
    doPost store props fetch (Except.ok payload) =
      errResponse ("Unknown action: " ++ s) := by
  simp only [List.mem_cons, List.not_mem_nil, or_false, not_or] at hs
  obtain ⟨h1, h2, h3, h4, h5⟩ := hs
  simp only [doPost, doPostTry, ha]
  unfold dispatch
  split
  · rename_i heq
    injection heq with heq
    injection heq with heq
    exact absurd heq h1
  · rename_i heq
    injection heq with heq
    injection heq with heq
    exact absurd heq h2
  · rename_i heq
    injection heq with heq
    injection heq with heq
    exact absurd heq h3
  · rename_i heq
    injection heq with heq
    injection heq with heq
    exact absurd heq h4
  · rename_i heq
    injection heq with heq
    injection heq with heq
    exact absurd heq h5
  · simp [jvalToStringOpt, jvalToString]

/-- Witness for C1 at a concrete unknown action. -/
theorem doPost_unknown_action_witness :
    jsGetMember (Jval.obj [("action", Jval.str "getclientdata")]) "action" =
      Except.ok (some (Jval.str "getclientdata")) ∧
    "getclientdata" ∉ (["getClientData", "getAdminDashboardData", "getAllOrders",
      "updateOrderStatus", "sendNotificationToClient"] : List String) ∧
    doPost emptyStore noProps downFetch
        (Except.ok (Jval.obj [("action", Jval.str "getclientdata")])) =
      errResponse ("Unknown action: " ++ "getclientdata") :=
  ⟨rfl, by decide,
    doPost_unknown_action emptyStore noProps downFetch _ "getclientdata" rfl (by decide)⟩

/-- C2: a malformed body (a `JSON.parse` exception), and more generally
any exception escaping the try block, is caught by `doPost` and converted
to the catch-all error envelope carrying the exception description; and
processing is stateless, so each response in a sequence is a function of
its own request only. -/
theorem doPost_catches (store : Store) (props : Props) (fetch : FetchOutcome) :
    (∀ e, doPost store props fetch (.error e) =
      errResponse ("Invalid request or server error: " ++ e))
    ∧ (∀ body e, doPostTry store props fetch body = .error e →
        doPost store props fetch body =
          errResponse ("Invalid request or server error: " ++ e))
    ∧ (∀ prev body, processRequests store props fetch (prev ++ [body]) =
        processRequests store props fetch prev ++ [doPost store props fetch body]) := by
  refine ⟨fun e => rfl, ?_, ?_⟩
  · intro body e h
    simp [doPost, h]
  · intro prev body
    simp [processRequests]

/-- Witness for C2 at a concrete malformed body. -/
theorem doPost_catches_witness :
    doPost emptyStore noProps downFetch (.error "SyntaxError: Unexpected token") =
      errResponse ("Invalid request or server error: " ++ "SyntaxError: Unexpected token") ∧
    doPostTry emptyStore noProps downFetch (.ok Jval.null) =
      .error "TypeError: Cannot read properties of null (reading action)" ∧
    doPost emptyStore noProps downFetch (.ok Jval.null) =
      errResponse ("Invalid request or server error: " ++
        "TypeError: Cannot read properties of null (reading action)") :=
  ⟨(doPost_catches emptyStore noProps downFetch).1 "SyntaxError: Unexpected token", rfl,
    (doPost_catches emptyStore noProps downFetch).2.1 (.ok Jval.null) _ rfl⟩

/-- C7: when either OneSignal credential is absent (or empty, both falsy)
the notification handler short-circuits with the error envelope, attempts
no outbound call, and builds no request payload. -/
theorem handleSendNotification_missing_creds (props : Props) (fetch : FetchOutcome)
    (payload : Jval)
    (h : (credMissing props.oneSignalAppId || credMissing props.oneSignalRestApiKey) = true) :
    handleSendNotification props fetch payload =
      { response := errResponse "OneSignal App ID or API Key not set in Script Properties.",
        fetchAttempted := false, requestPayload := none } := by
  simp [handleSendNotification, h]

/-- Witness for C7 with the app id missing. -/
theorem handleSendNotification_missing_creds_witness :
    (credMissing noProps.oneSignalAppId || credMissing noProps.oneSignalRestApiKey) = true ∧
    handleSendNotification noProps downFetch (Jval.obj [("clientId", Jval.num 7)]) =
      { response := errResponse "OneSignal App ID or API Key not set in Script Properties.",
        fetchAttempted := false, requestPayload := none } :=
  ⟨rfl, handleSendNotification_missing_creds noProps downFetch _ rfl⟩

/-- C4: when the trimmed identifier matches neither the trimmed customer
number nor the trimmed phone of any customer record, the lookup returns
exactly the Client-not-found error envelope, with no `user`, `containers`
or `materialOrders` fields. -/
theorem handleGetClientData_not_found (store : Store) (payload : Jval)
    (h : ∀ r ∈ getSheetData store.customers, matchesId (inputCustomerId payload) r = false) :
    handleGetClientData store payload =
      { status := "error", message := some "Client not found", user := none,
        containers := none, materialOrders := none, orders := none } := by
  have hfind : (getSheetData store.customers).find? (matchesId (inputCustomerId payload)) =
      none := by
    rw [List.find?_eq_none]
    intro x hx
    simp [h x hx]
  simp only [handleGetClientData]
  rw [hfind]
  rfl

/-- Witness for C4 at a store whose one customer does not match. -/
theorem handleGetClientData_not_found_witness :
    (∀ r ∈ getSheetData (some (Sheet.mk
        [[Value.str "מספר לקוח", Value.str "טלפון"], [Value.num 123, Value.str "0501"]] 2)),
      matchesId (inputCustomerId (Jval.obj [("customerId", Jval.str "999")])) r = false) ∧
    handleGetClientData
        ⟨some (Sheet.mk
          [[Value.str "מספר לקוח", Value.str "טלפון"], [Value.num 123, Value.str "0501"]] 2),
         none, none, none⟩
        (Jval.obj [("customerId", Jval.str "999")]) =
      { status := "error", message := some "Client not found", user := none,
        containers := none, materialOrders := none, orders := none } :=
  ⟨by decide, handleGetClientData_not_found _ _ (by decide)⟩

/-- C3: when the trimmed identifier matches the trimmed customer number
or trimmed phone of at least one customer record, the lookup returns the
success envelope whose `user` is the first matching record in scan order,
and whose `containers` and `materialOrders` are exactly the rental and
material records whose trimmed customer-number field equals the canonical
number re-derived from the matched record. -/
theorem handleGetClientData_found (store : Store) (payload : Jval)
    (hmatch : ∃ r ∈ getSheetData store.customers,
      matchesId (inputCustomerId payload) r = true) :
    ∃ user : Record,
      (getSheetData store.customers).find? (matchesId (inputCustomerId payload)) = some user
      ∧ matchesId (inputCustomerId payload) user = true
      ∧ (∃ pre post, getSheetData store.customers = pre ++ user :: post
          ∧ ∀ r ∈ pre, matchesId (inputCustomerId payload) r = false)
      ∧ handleGetClientData store payload =
          { status := "success", user := some user,
            containers := some ((getSheetData store.containerRentals).filter
              (fun row => trimmedField row "מספר לקוח" == trimmedField user "מספר לקוח")),
            materialOrders := some ((getSheetData store.materialOrders).filter
              (fun row => trimmedField row "מספר לקוח" == trimmedField user "מספר לקוח")) } := by
  have hsome : ((getSheetData store.customers).find?
      (matchesId (inputCustomerId payload))).isSome := by
    rw [List.find?_isSome]
    obtain ⟨r, hr, hm⟩ := hmatch
    exact ⟨r, hr, hm⟩
  obtain ⟨user, huser⟩ := Option.isSome_iff_exists.mp hsome
  obtain ⟨hp, pre, post, hsplit, hpre⟩ := find?_first huser
  refine ⟨user, huser, hp, ⟨pre, post, hsplit, hpre⟩, ?_⟩
  simp only [handleGetClientData]
  rw [huser]

/-- The customers sheet of the C3 witness: header plus two customer
rows; the identifier below matches the second row by phone. -/
def phoneSheet : Sheet :=
  ⟨[[Value.str "מספר לקוח", Value.str "טלפון"],
    [Value.num 1, Value.str "0500"], [Value.num 2, Value.str "0501"]], 2⟩

/-- The store of the C3 witness. -/
def phoneStore : Store := ⟨some phoneSheet, none, none, none⟩

/-- The request payload of the C3 witness: an untrimmed phone number. -/
def phonePayload : Jval := .obj [("customerId", .str " 0501 ")]

/-- Witness for C3: the identifier matches the second record by phone;
joins are keyed by the canonical customer number of that record. -/
theorem handleGetClientData_found_witness :
    (∃ r ∈ getSheetData phoneStore.customers,
      matchesId (inputCustomerId phonePayload) r = true) ∧
    ∃ user : Record,
      (getSheetData phoneStore.customers).find?
          (matchesId (inputCustomerId phonePayload)) = some user
      ∧ matchesId (inputCustomerId phonePayload) user = true
      ∧ (∃ pre post, getSheetData phoneStore.customers = pre ++ user :: post
          ∧ ∀ r ∈ pre, matchesId (inputCustomerId phonePayload) r = false)
      ∧ handleGetClientData phoneStore phonePayload =
          { status := "success", user := some user,
            containers := some ((getSheetData phoneStore.containerRentals).filter
              (fun row => trimmedField row "מספר לקוח" == trimmedField user "מספר לקוח")),
            materialOrders := some ((getSheetData phoneStore.materialOrders).filter
              (fun row => trimmedField row "מספר לקוח" == trimmedField user "מספר לקוח")) } :=
  ⟨by decide, handleGetClientData_found phoneStore phonePayload (by decide)⟩

/-- Inserting permutes to consing. -/
theorem insertByDate_perm (x : Record) (l : List Record) :
    (insertByDate x l).Perm (x :: l) := by
  induction l with
  | nil => exact List.Perm.refl _
  | cons y ys ih =>
    rw [insertByDate]
    by_cases hle : orderLe x y
    · rw [if_pos hle]
    · rw [if_neg hle]
      exact (ih.cons y).trans (List.Perm.swap x y ys)

/-- The sort is a permutation of its input. -/
theorem sortByDate_perm (l : List Record) : (sortByDate l).Perm l := by
  induction l with
  | nil => exact List.Perm.refl _
  | cons a as ih =>
    rw [sortByDate, List.foldr_cons]
    exact (insertByDate_perm a _).trans (ih.cons a)

/-- The non-increasing-timestamp order the all-orders feed is sorted by
(with a default for records whose date is invalid, which the sortedness
statement rules out by hypothesis). -/
def tsLe (a b : Record) : Prop := (orderTs b).getD 0 ≤ (orderTs a).getD 0

/-- Inserting a record with a valid timestamp into a sorted list of
records with valid timestamps keeps it sorted. -/
theorem pairwise_insertByDate (x : Record) (l : List Record)
    (hx : (orderTs x).isSome) (hl : ∀ y ∈ l, (orderTs y).isSome)
    (hs : l.Pairwise tsLe) : (insertByDate x l).Pairwise tsLe := by
  induction l with
  | nil => simp [insertByDate]
  | cons y ys ih =>
    obtain ⟨hy, hys⟩ := List.pairwise_cons.mp hs
    obtain ⟨tx, htx⟩ := Option.isSome_iff_exists.mp hx
    obtain ⟨ty, hty⟩ := Option.isSome_iff_exists.mp (hl y (List.mem_cons_self y ys))
    rw [insertByDate]
    by_cases hle : orderLe x y
    · rw [if_pos hle]
      rw [orderLe, htx, hty] at hle
      rw [List.pairwise_cons]
      refine ⟨?_, hs⟩
      intro z hz
      rcases List.mem_cons.mp hz with h1 | h2
      · subst h1
        rw [tsLe, htx, hty]
        simpa using hle
      · have := hy z h2
        rw [tsLe] at this ⊢
        rw [htx]
        refine le_trans this ?_
        rw [hty]
        simpa using hle
    · rw [if_neg hle]
      rw [orderLe, htx, hty] at hle
      rw [List.pairwise_cons]
      constructor
      · intro z hz
        have hz' := (insertByDate_perm x ys).mem_iff.mp hz
        rcases List.mem_cons.mp hz' with h1 | h2
        · subst h1
          rw [tsLe, htx, hty]
          simp only [decide_eq_true_eq] at hle
          simp only [Option.getD_some]
          omega
        · exact hy z h2
      · exact ih (fun z hz => hl z (List.mem_cons_of_mem y hz)) hys

/-- When every record has a valid resolved timestamp, the sort output is
pairwise non-increasing in that timestamp. -/
theorem pairwise_sortByDate (l : List Record)
    (h : ∀ r ∈ l, (orderTs r).isSome) : (sortByDate l).Pairwise tsLe := by
  induction l with
  | nil => simp [sortByDate]
  | cons a as ih =>
    rw [sortByDate, List.foldr_cons]
    refine pairwise_insertByDate a _ (h a (List.mem_cons_self a as)) ?_ ?_
    · intro y hy
      exact h y (List.mem_cons_of_mem a ((sortByDate_perm as).mem_iff.mp hy))
    · exact ih (fun r hr => h r (List.mem_cons_of_mem a hr))

/-- The written property reads back. -/
theorem objLookup_objSet_self (r : Record) (k : String) (v : Value) :
    objLookup (objSet r k v) k = some v := by
  induction r with
  | nil => simp [objSet, objLookup]
  | cons p rest ih =>
    obtain ⟨k', v'⟩ := p
    by_cases hk : k' = k
    · subst hk
      simp [objSet, objLookup]
    · simp [objSet, if_neg hk, objLookup, hk, ih]

/-- C5: the all-orders feed has length equal to material-order count plus
container-order count; every record tagged from the material-orders table
carries discriminator `orderType = "materials"` and every one from the
container-orders table carries `"container"`; the output is a permutation
of the tagged concatenation; and — under the claim's presupposition that
every record's received-date/order-date resolves to a valid timestamp —
the output is non-increasing in that timestamp. -/
theorem handleGetAllOrders_spec (store : Store)
    (hres : ∀ r ∈ ((getSheetData store.materialOrders).map (tagOrder "materials") ++
        (getSheetData store.containerOrders).map (tagOrder "container")),
      (orderTs r).isSome) :
    ∃ out : List Record,
      handleGetAllOrders store = { status := "success", orders := some out }
      ∧ out.length = (getSheetData store.materialOrders).length +
          (getSheetData store.containerOrders).length
      ∧ out.Perm ((getSheetData store.materialOrders).map (tagOrder "materials") ++
          (getSheetData store.containerOrders).map (tagOrder "container"))
      ∧ (∀ r ∈ (getSheetData store.materialOrders).map (tagOrder "materials"),
          objLookup r "orderType" = some (.str "materials"))
      ∧ (∀ r ∈ (getSheetData store.containerOrders).map (tagOrder "container"),
          objLookup r "orderType" = some (.str "container"))
      ∧ out.Pairwise tsLe := by
  refine ⟨sortByDate ((getSheetData store.materialOrders).map (tagOrder "materials") ++
      (getSheetData store.containerOrders).map (tagOrder "container")), rfl, ?_, ?_, ?_, ?_, ?_⟩
  · rw [(sortByDate_perm _).length_eq, List.length_append, List.length_map, List.length_map]
  · exact sortByDate_perm _
  · intro r hr
    obtain ⟨r', _, hre⟩ := List.mem_map.mp hr
    rw [← hre, tagOrder, objLookup_objSet_self]
  · intro r hr
    obtain ⟨r', _, hre⟩ := List.mem_map.mp hr
    rw [← hre, tagOrder, objLookup_objSet_self]
  · exact pairwise_sortByDate _ hres

/-- The material-orders sheet of the C5 witness: one dated order. -/
def materialsSheetW : Sheet :=
  ⟨[[Value.str "תאריך קליטה", Value.str "פריט"],
    [Value.date 50, Value.str "צמנט"]], 2⟩

/-- The container-orders sheet of the C5 witness: two orders, one dated
only by its order date. -/
def containersSheetW : Sheet :=
  ⟨[[Value.str "תאריך קליטה", Value.str "תאריך הזמנה"],
    [Value.date 90, Value.num 10], [Value.str "", Value.num 70]], 2⟩

/-- The store of the C5 witness. -/
def ordersStoreW : Store := ⟨none, none, some materialsSheetW, some containersSheetW⟩

/-- Witness for C5 at a concrete pair of order sheets. -/
theorem handleGetAllOrders_spec_witness :
    (∀ r ∈ ((getSheetData ordersStoreW.materialOrders).map (tagOrder "materials") ++
        (getSheetData ordersStoreW.containerOrders).map (tagOrder "container")),
      (orderTs r).isSome) ∧
    ∃ out : List Record,
      handleGetAllOrders ordersStoreW = { status := "success", orders := some out }
      ∧ out.length = (getSheetData ordersStoreW.materialOrders).length +
          (getSheetData ordersStoreW.containerOrders).length
      ∧ out.Perm ((getSheetData ordersStoreW.materialOrders).map (tagOrder "materials") ++
          (getSheetData ordersStoreW.containerOrders).map (tagOrder "container"))
      ∧ (∀ r ∈ (getSheetData ordersStoreW.materialOrders).map (tagOrder "materials"),
          objLookup r "orderType" = some (.str "materials"))
      ∧ (∀ r ∈ (getSheetData ordersStoreW.containerOrders).map (tagOrder "container"),
          objLookup r "orderType" = some (.str "container"))
      ∧ out.Pairwise tsLe :=
  ⟨by decide, handleGetAllOrders_spec ordersStoreW (by decide)⟩

/-- C6: with both credentials present, the outcome of the single outbound
POST falls into exactly three states: HTTP 200 with provider-reported
recipients > 0 gives a success envelope with the recipient count in the
message; HTTP 200 with zero recipients gives the distinct warning
envelope; any other status gives an error envelope embedding the status
code and raw body; and a transport or response-parse exception gives an
error envelope carrying the exception description. -/
theorem handleSendNotification_outcomes (props : Props) (payload : Jval)
    (happ : credMissing props.oneSignalAppId = false)
    (hkey : credMissing props.oneSignalRestApiKey = false) :
    (∀ (bodyText : String) (parsedBody : Jval),
        jsGtZero (jvalGet parsedBody "recipients") = true →
        (handleSendNotification props (.responds 200 bodyText (.ok parsedBody))
            payload).response =
          { status := "success", message := some ("Notification sent successfully to " ++
              jvalToStringOpt (jvalGet parsedBody "recipients") ++ " recipient(s).") }
        ∧ (handleSendNotification props (.responds 200 bodyText (.ok parsedBody))
            payload).fetchAttempted = true)
    ∧ (∀ (bodyText : String) (parsedBody : Jval),
        jsGtZero (jvalGet parsedBody "recipients") = false →
        (handleSendNotification props (.responds 200 bodyText (.ok parsedBody))
            payload).response =
          { status := "warning",
            message := some ("Notification sent, but no recipients found for Client ID: " ++
              jvalToStringOpt (jvalGet payload "clientId") ++
              ". Please verify the client has enabled notifications and is correctly identified in OneSignal.") }
        ∧ (handleSendNotification props (.responds 200 bodyText (.ok parsedBody))
            payload).fetchAttempted = true)
    ∧ (∀ (code : Int) (bodyText : String) (parsed : Except String Jval), code ≠ 200 →
        (handleSendNotification props (.responds code bodyText parsed) payload).response =
          errResponse ("Failed to send notification. OneSignal returned status " ++
            toString code ++ ". Details: " ++ bodyText)
        ∧ (handleSendNotification props (.responds code bodyText parsed)
            payload).fetchAttempted = true)
    ∧ (∀ msg : String,
        (handleSendNotification props (.throws msg) payload).response =
          errResponse ("Failed to send notification due to a script error: " ++ msg)
        ∧ (handleSendNotification props (.throws msg) payload).fetchAttempted = true)
    ∧ (∀ (bodyText e : String),
        (handleSendNotification props (.responds 200 bodyText (.error e)) payload).response =
          errResponse ("Failed to send notification due to a script error: " ++ e)
        ∧ (handleSendNotification props (.responds 200 bodyText (.error e))
            payload).fetchAttempted = true) := by
  refine ⟨?_, ?_, ?_, ?_, ?_⟩
  · intro bodyText parsedBody hgt
    constructor <;> simp [handleSendNotification, happ, hkey, hgt]
  · intro bodyText parsedBody hgt
    constructor <;> simp [handleSendNotification, happ, hkey, hgt]
  · intro code bodyText parsed hne
    constructor <;> simp [handleSendNotification, happ, hkey, hne]
  · intro msg
    constructor <;> simp [handleSendNotification, happ, hkey]
  · intro bodyText e
    constructor <;> simp [handleSendNotification, happ, hkey]

/-- The request payload of the C6 witness. -/
def notifyPayloadW : Jval :=
  .obj [("clientId", .num 42), ("title", .str "שלום"), ("message", .str "הזמנה")]

/-- Witness for C6: all four outcome shapes at concrete provider
responses, with both credentials present. -/
theorem handleSendNotification_outcomes_witness :
    credMissing fullProps.oneSignalAppId = false ∧
    credMissing fullProps.oneSignalRestApiKey = false ∧
    jsGtZero (jvalGet (Jval.obj [("recipients", Jval.num 3)]) "recipients") = true ∧
    (handleSendNotification fullProps
        (.responds 200 "ok" (.ok (Jval.obj [("recipients", Jval.num 3)])))
        notifyPayloadW).response =
      { status := "success",
        message := some ("Notification sent successfully to " ++
          jvalToStringOpt (jvalGet (Jval.obj [("recipients", Jval.num 3)]) "recipients") ++
          " recipient(s).") } ∧
    (handleSendNotification fullProps
        (.responds 200 "ok" (.ok (Jval.obj [("recipients", Jval.num 0)])))
        notifyPayloadW).response.status = "warning" ∧
    (handleSendNotification fullProps (.responds 500 "oops" (.error "bad json"))
        notifyPayloadW).response =
      errResponse ("Failed to send notification. OneSignal returned status " ++
        toString (500 : Int) ++ ". Details: " ++ "oops") ∧
    (handleSendNotification fullProps (.throws "timeout") notifyPayloadW).response =
      errResponse ("Failed to send notification due to a script error: " ++ "timeout") := by
  have h := handleSendNotification_outcomes fullProps notifyPayloadW rfl rfl
  refine ⟨rfl, rfl, rfl, (h.1 "ok" (Jval.obj [("recipients", Jval.num 3)]) rfl).1, ?_,
    (h.2.2.1 500 "oops" (.error "bad json") (by decide)).1, (h.2.2.2.1 "timeout").1⟩
  rw [(h.2.1 "ok" (Jval.obj [("recipients", Jval.num 0)]) rfl).1]
